import Mathlib

/-!
Verification of the partition planning and apply pipeline of
`src/modules/partitioner.py` (class `DrivePartitioner`), via a shallow
embedding: Python integers become `Int`/`Nat` (Python `//` is floor
division, `Int.fdiv`), partition dicts become a record whose fields are
the dict keys actually written by the code (a key a code path does not
set keeps the record default), and fallible code returns `Except`.
-/

namespace Weirding

/-- One entry of `DriveInfo.partitions` as built by
`device_setup.py` lines 99-104: keys `name`, `size` (a human-readable
string from lsblk), `fstype`, `mountpoint`. -/
structure ExistingPartitionInfo where
  name : String := ""
  size : String := ""
  fstype : String := ""
  mountpoint : String := ""
deriving DecidableEq

/-- The fields of `device_setup.DriveInfo` that `partitioner.py` reads:
`device`, `size` (total bytes) and `partitions`. -/
structure DriveInfo where
  device : String := ""
  size : Nat := 0
  partitions : List ExistingPartitionInfo := []
deriving DecidableEq

/-- A partition dict as built by `partitioner.py`. Dict keys become
optional-defaulted fields: `ptype` is the dict key `'type'`;
`mount_point` (planner-created partitions, lines 135-181, 210-219) and
`mountpoint` (existing partitions copied at lines 555-562) are distinct
keys in the source and so are distinct fields here. `action` is absent
(`none`) on full-wipe partitions and set only in dual-use mode
(lines 218, 224). -/
structure Partition where
  number : Int := 0
  ptype : String := ""
  filesystem : String := ""
  size : Int := 0
  label : String := ""
  flags : List String := []
  mount_point : Option String := none
  mountpoint : String := ""
  name : String := ""
  action : Option String := none
deriving DecidableEq

/-- `PartitionPlan` dataclass (lines 22-29); the unused `base_image`
field is omitted. -/
structure PartitionPlan where
  drive : DriveInfo
  mode : String
  partitions : List Partition
  backup_file : Option String := none
deriving DecidableEq

/-! ### `_parse_size_to_bytes` (lines 570-589)

The regex `([0-9.]+)([KMGTPE]?)` anchored at the start of the
stripped, upper-cased string: group 1 is the maximal leading run of
digits and dots, group 2 a single following unit letter if present.
`float(group1)` succeeds exactly when the run contains at least one
digit and at most one dot; otherwise Python raises `ValueError`, which
we model as `Except.error`. The numeric value is modelled with exact
rational arithmetic in place of IEEE-754 doubles; the properties
proved below (success/failure structure, sign, the zero default) do
not depend on floating-point rounding. -/

/-- Python `str.strip()` on the character list: whitespace removed
from both ends. -/
def pyTrim (cs : List Char) : List Char :=
  ((cs.dropWhile Char.isWhitespace).reverse.dropWhile Char.isWhitespace).reverse

/-- Python `str.upper()` (the size strings are ASCII). -/
def pyUpper (cs : List Char) : List Char :=
  cs.map Char.toUpper

/-- The stripped, upper-cased input the regex is matched against
(line 576 and the `.upper()` at line 577). -/
def pyNormalized (s : String) : List Char :=
  pyUpper (pyTrim s.toList)

/-- Group 1 of the regex: the maximal leading run of digits and dots. -/
def pyDigitRun (s : String) : List Char :=
  (pyNormalized s).takeWhile fun c => c.isDigit || c == '.'

/-- Value of a run of decimal digits, as `float`/`int` would read it. -/
def digitsToNat (cs : List Char) : Nat :=
  cs.foldl (fun n c => 10 * n + (c.toNat - 48)) 0

/-- Split a character run at the dots (Python float-literal shape). -/
def splitOnDot : List Char → List (List Char)
  | [] => [[]]
  | c :: rest =>
      if c == '.' then [] :: splitOnDot rest
      else
        match splitOnDot rest with
        | g :: gs => (c :: g) :: gs
        | [] => [[c]]

/-- `int(float(ds) * mult)` computed exactly: a valid float literal
`ds` denotes `I + F / 10^L` (integer part `I`, fractional digits `F`
of length `L`), and truncating `(I + F/10^L) * mult` toward zero for
this non-negative value is `I * mult + F * mult / 10^L` in integer
arithmetic. Exact rational arithmetic stands in for the source's
IEEE-754 doubles; the properties proved below do not depend on
floating-point rounding. -/
def intOfRun (ds : List Char) (mult : Nat) : Nat :=
  match splitOnDot ds with
  | [a] => digitsToNat a * mult
  | [a, b] => digitsToNat a * mult + digitsToNat b * mult / 10 ^ b.length
  | _ => 0

/-- The `multipliers` dict lookup with default 1 (lines 584-589). -/
def multOfUnit (u : Option Char) : Nat :=
  match u with
  | some 'K' => 1024
  | some 'M' => 1024 ^ 2
  | some 'G' => 1024 ^ 3
  | some 'T' => 1024 ^ 4
  | some 'P' => 1024 ^ 5
  | some 'E' => 1024 ^ 6
  | _ => 1

/-- Group 2 of the regex: the single character following the digit/dot
run, if it is one of `KMGTPE`. -/
def unitOfRest (rest : List Char) : Option Char :=
  match rest with
  | c :: _ =>
      if c == 'K' || c == 'M' || c == 'G' || c == 'T' || c == 'P' || c == 'E'
      then some c else none
  | [] => none

/-- `DrivePartitioner._parse_size_to_bytes` (lines 570-589). Returns
`.error` where the Python raises `ValueError` (inside `float()`): a
leading digit/dot run is a valid float literal exactly when it has at
least one digit and at most one dot. -/
def _parse_size_to_bytes (size_str : String) : Except String Int :=
  if size_str = "" then .ok 0
  else if pyDigitRun size_str = [] then .ok 0
  else if ((pyDigitRun size_str).count '.' ≤ 1 &&
      (pyDigitRun size_str).any (·.isDigit)) then
    .ok (intOfRun (pyDigitRun size_str)
      (multOfUnit (unitOfRest
        ((pyNormalized size_str).drop (pyDigitRun size_str).length))) : Int)
  else
    .error "could not convert string to float"

/-! ### Full-wipe planning (`_create_full_wipe_plan`, lines 68-192)

The sequential `let` computations of the source are named definitions;
each is annotated with the source lines it embeds. -/

/-- `usable_sectors` (lines 77-80): `drive_size_sectors = total_size // 512`,
minus 2048 sectors of primary GPT + alignment and 33 sectors of backup
GPT. Python subtraction can go negative, hence `Int`. -/
def usable_sectors (total_size : Nat) : Int :=
  ((total_size / 512 : Nat) : Int) - 2048 - 33

/-- `usable_size = usable_sectors * 512` (line 81). -/
def usable_size (total_size : Nat) : Int :=
  usable_sectors total_size * 512

/-- `bios_boot_size = 2 * 1024 * 1024` (line 91). -/
def bios_boot_size : Int := 2 * 1024 * 1024

/-- `efi_size = 512 * 1024 * 1024` (line 92). -/
def efi_size : Int := 512 * 1024 * 1024

/-- `alignment_buffer = 10 * 1024 * 1024` (line 104). -/
def alignment_buffer : Int := 10 * 1024 * 1024

/-- Initial `root_size` (lines 95-98): 10 GiB when `usable_size < 64 GiB`,
else 20 GiB. -/
def root_size_initial (total_size : Nat) : Int :=
  if usable_size total_size < 64 * 1024 ^ 3 then 10 * 1024 ^ 3 else 20 * 1024 ^ 3

/-- `swap_size = min(4 GiB, usable_size // 32)` (line 101); Python `//`
is floor division. -/
def swap_size (total_size : Nat) : Int :=
  min (4 * 1024 ^ 3) ((usable_size total_size).fdiv 32)

/-- Initial `models_size` (lines 107-108): usable space minus the fixed
partitions and the alignment buffer. -/
def models_size_initial (total_size : Nat) : Int :=
  usable_size total_size -
    (bios_boot_size + efi_size + root_size_initial total_size +
      swap_size total_size + alignment_buffer)

/-- `root_size` after the too-small fallback (lines 120-124): reduced to
8 GiB when the initial models partition is below 5 GiB. -/
def root_size_final (total_size : Nat) : Int :=
  if models_size_initial total_size < 5 * 1024 ^ 3 then 8 * 1024 ^ 3
  else root_size_initial total_size

/-- `models_size` after the fallback (lines 120-125): recomputed from
the final root size (equal to the initial value when no fallback). -/
def models_size_final (total_size : Nat) : Int :=
  usable_size total_size -
    (bios_boot_size + efi_size + root_size_final total_size +
      swap_size total_size + alignment_buffer)

/-- Root label (line 159): `f'{module_name}_ROOT' if module_name else
'WEIRDING_ROOT'`; `none` models a falsy (absent or empty) name. -/
def root_label : Option String → String
  | some n => n ++ "_ROOT"
  | none => "WEIRDING_ROOT"

/-- Models label (line 177). -/
def models_label : Option String → String
  | some n => n ++ "_MODELS"
  | none => "WEIRDING_MODELS"

/-- The five-partition layout of lines 135-181 with the sizes computed
above. -/
def fullWipePartitionList (total_size : Nat) (module_name : Option String) :
    List Partition :=
  [ { number := 1, ptype := "BIOS boot", filesystem := "none",
      size := bios_boot_size, label := "BIOS_BOOT", flags := ["bios_grub"],
      mount_point := none },
    { number := 2, ptype := "EFI System", filesystem := "fat32",
      size := efi_size, label := "WEIRD_EFI", flags := ["boot", "esp"],
      mount_point := some "/boot/efi" },
    { number := 3, ptype := "Linux filesystem", filesystem := "ext4",
      size := root_size_final total_size, label := root_label module_name,
      flags := [], mount_point := some "/" },
    { number := 4, ptype := "Linux swap", filesystem := "linux-swap",
      size := swap_size total_size, label := "WEIRDING_SWAP", flags := [],
      mount_point := some "swap" },
    { number := 5, ptype := "Linux filesystem", filesystem := "ext4",
      size := models_size_final total_size, label := models_label module_name,
      flags := [], mount_point := some "/opt/models" } ]

/-- `_create_full_wipe_plan` (lines 68-192): builds the five-partition
layout, then the final validation of lines 183-187 raises `ValueError`
(modelled as `.error`) when the summed sizes exceed `usable_size`. -/
def _create_full_wipe_plan (drive : DriveInfo) (module_name : Option String) :
    Except String (List Partition) :=
  let parts := fullWipePartitionList drive.size module_name
  let total_partition_size := (parts.map (·.size)).sum
  if total_partition_size > usable_size drive.size then
    .error "Partition plan exceeds available space"
  else
    .ok parts

/-! ### Dual-use planning (`_create_dual_use_plan`, lines 194-227) -/

/-- `_get_current_partitions` (lines 551-564): numbers the drive's
existing partitions from 1 and parses each size string; the parse can
raise (propagated as `.error`). -/
def _get_current_partitions (drive : DriveInfo) :
    Except String (List Partition) :=
  drive.partitions.enum.mapM fun ip => do
    let sz ← _parse_size_to_bytes ip.2.size
    pure { number := (ip.1 : Int) + 1, name := ip.2.name, size := sz,
           filesystem := ip.2.fstype, mountpoint := ip.2.mountpoint }

/-- `_get_partition_size` (lines 566-568): `partition.get('size', 0)`. -/
def _get_partition_size (p : Partition) : Int := p.size

/-- Python `max(xs, default=0)` as used at line 207 (the list elements
are the partition numbers 1..n, so the default only matters when the
list is empty). -/
def maxDefault0 : List Int → Int
  | [] => 0
  | x :: xs => xs.foldl max x

/-- Weirding label (line 215). -/
def weirding_label : Option String → String
  | some n => n ++ "_WEIRDING"
  | none => "WEIRDING_MODULE"

/-- `_create_dual_use_plan` (lines 194-227): `available_space` is the
raw `drive.size` minus the summed existing sizes; the new partition is
`min(50 GiB, max(25 GiB, available_space - 1 GiB))`; existing
partitions are marked `preserve` and the new one appended with
`create`. No error path exists besides size-string parsing. -/
def _create_dual_use_plan (drive : DriveInfo) (module_name : Option String) :
    Except String (List Partition) := do
  let current ← _get_current_partitions drive
  let used_space := (current.map _get_partition_size).sum
  let available_space : Int := (drive.size : Int) - used_space
  let weirding_size :=
    min (50 * 1024 * 1024 * 1024)
      (max (25 * 1024 * 1024 * 1024) (available_space - 1024 * 1024 * 1024))
  let next_partition_num := maxDefault0 (current.map (·.number)) + 1
  let new_partition : Partition :=
    { number := next_partition_num, ptype := "Linux filesystem",
      filesystem := "ext4", size := weirding_size,
      label := weirding_label module_name, flags := [],
      mount_point := some "/opt/weirding", action := some "create" }
  let parts := current.map fun p => { p with action := some "preserve" }
  pure (parts ++ [new_partition])

/-- `create_partition_plan` (lines 39-66): dispatch on the mode string;
unknown modes raise `ValueError`. -/
def create_partition_plan (drive : DriveInfo) (mode : String)
    (module_name : Option String := none) : Except String PartitionPlan :=
  if mode = "full_wipe" then
    (_create_full_wipe_plan drive module_name).map
      fun ps => { drive := drive, mode := mode, partitions := ps }
  else if mode = "dual_use" then
    (_create_dual_use_plan drive module_name).map
      fun ps => { drive := drive, mode := mode, partitions := ps }
  else
    .error ("Unknown setup mode: " ++ mode)

/-! ### Sector allocation in `_apply_full_wipe_partitioning`
(lines 358-468)

The sgdisk invocations are side effects; the embedded content is the
pure sector arithmetic of lines 374-428: the pre-loop shrink of the
last partition, and the per-partition size/alignment/clamp
computation. -/

/-- Per-partition sector count (lines 402-408): round the byte size up
to whole sectors, then — except for the `BIOS boot` partition — round
up to a 2048-sector (1 MiB) boundary. Python `//` is floor division. -/
def allocSectors (p : Partition) : Int :=
  let size_sectors := (p.size + 511).fdiv 512
  if p.ptype == "BIOS boot" then size_sectors
  else ((size_sectors + 2048 - 1).fdiv 2048) * 2048

/-- The loop of lines 397-450: each partition occupies
`[current_sector, current_sector + size_sectors - 1]`; for the final
partition only, an end sector beyond `usable_sectors` is clamped to it
and the sector count recomputed (lines 420-428). Yields
`(partition, start_sector, allocated sector count)`. -/
def allocate (usable : Int) : Int → List Partition → List (Partition × Int × Int)
  | _, [] => []
  | current_sector, [p] =>
      let s := allocSectors p
      let end_sector := current_sector + s - 1
      if end_sector > usable then
        [(p, current_sector, usable - current_sector + 1)]
      else
        [(p, current_sector, s)]
  | current_sector, p :: q :: rest =>
      (p, current_sector, allocSectors p) ::
        allocate usable (current_sector + allocSectors p) (q :: rest)

/-- The conditional in-place update of lines 388-390:
`plan.partitions[-1]['size'] = available_for_last` when the last
partition's size exceeds `available_for_last`. -/
def shrinkLast (avail : Int) : List Partition → List Partition
  | [] => []
  | [p] => if avail < p.size then [{ p with size := avail }] else [p]
  | p :: q :: rest => p :: shrinkLast avail (q :: rest)

/-- The sector arithmetic of `_apply_full_wipe_partitioning`
(lines 374-428): `usable_sectors = total // 512 - 33` (the apply side
reserves only the backup GPT here; the 2048 starting sectors are
accounted via the loop's start at sector 2048 and the explicit
`2048 * 512` term at line 386). The last partition is pre-shrunk when
it exceeds `available_for_last`, then the loop allocates from sector
2048. -/
def _apply_full_wipe_sectors (plan : PartitionPlan) :
    List (Partition × Int × Int) :=
  let drive_size_sectors : Int := ((plan.drive.size / 512 : Nat) : Int)
  let usable_sectors := drive_size_sectors - 33
  let usable_bytes := usable_sectors * 512
  let total_fixed_partitions_size := ((plan.partitions.dropLast).map (·.size)).sum
  let available_for_last := usable_bytes - 2048 * 512 - total_fixed_partitions_size
  allocate usable_sectors 2048 (shrinkLast available_for_last plan.partitions)

/-! ### Control flow of `apply_partition_plan` (lines 298-356)

The externally-determined outcomes of the five stages are abstracted
as booleans; the embedding records which stages execute and what the
method returns. Faithful branch map:
* backup raises (lines 244-266 re-raise any sgdisk failure as
  `RuntimeError`) → the `except` at line 348 runs with
  `plan.backup_file` still `None`, so no restore is attempted and
  `False` is returned, with unmount/table/format stages never reached;
* an unknown mode raises `ValueError` (line 328) after unmount, before
  any table write, and reaches the same `except`, where restore is
  attempted iff the backup file exists;
* `_apply_full_wipe_partitioning` / `_apply_dual_use_partitioning`
  swallow `CalledProcessError` and return `False` (lines 466-468,
  495-497), so a table-write failure takes the plain
  `if not success: return False` at lines 330-331 — the `except`
  block and its restore are NOT reached;
* `_format_partitions` re-raises formatting failures (lines 536-538),
  reaching the `except`: restore is attempted iff the backup file
  exists (line 352), and its boolean result is discarded — the method
  returns `False` regardless (line 356). -/

structure ApplyEnv where
  backupOk : Bool
  tableOk : Bool
  formatOk : Bool
  backupFileExists : Bool
  restoreOk : Bool
deriving DecidableEq

structure ApplyOutcome where
  returned : Bool
  unmountCalled : Bool
  tableMutationStarted : Bool
  formatCalled : Bool
  restoreCalled : Bool
  restoreResult : Option Bool
deriving DecidableEq

/-- Control flow of `apply_partition_plan` (lines 298-356) for a plan
of the given mode, given the outcomes of the external stages. -/
def apply_partition_plan_flow (mode : String) (env : ApplyEnv) : ApplyOutcome :=
  if !env.backupOk then
    { returned := false, unmountCalled := false, tableMutationStarted := false,
      formatCalled := false, restoreCalled := false, restoreResult := none }
  else if mode ≠ "full_wipe" ∧ mode ≠ "dual_use" then
    { returned := false, unmountCalled := true, tableMutationStarted := false,
      formatCalled := false, restoreCalled := env.backupFileExists,
      restoreResult := if env.backupFileExists then some env.restoreOk else none }
  else if !env.tableOk then
    { returned := false, unmountCalled := true, tableMutationStarted := true,
      formatCalled := false, restoreCalled := false, restoreResult := none }
  else if !env.formatOk then
    { returned := false, unmountCalled := true, tableMutationStarted := true,
      formatCalled := true, restoreCalled := env.backupFileExists,
      restoreResult := if env.backupFileExists then some env.restoreOk else none }
  else
    { returned := true, unmountCalled := true, tableMutationStarted := true,
      formatCalled := true, restoreCalled := false, restoreResult := none }

/-! ### Observation helpers on planner results -/

/-- The partition sizes of a successfully planned `PartitionPlan`. -/
def planPartSizes : Except String PartitionPlan → Option (List Int)
  | .ok p => some (p.partitions.map (·.size))
  | .error _ => none

/-- Summed sizes of the partitions marked `action = 'create'`. -/
def planCreateSizesSum : Except String PartitionPlan → Option Int
  | .ok p =>
      some (((p.partitions.filter fun q => q.action == some "create").map
        (·.size)).sum)
  | .error _ => none

/-- Number of partitions whose `mount_point` is `'/'` (the root role). -/
def planRootCount : Except String PartitionPlan → Option Nat
  | .ok p => some ((p.partitions.filter fun q => q.mount_point == some "/").length)
  | .error _ => none

/-! ### General lemmas -/

/-- Python `//` by 512 agrees with Lean's `Int` euclidean division. -/
theorem fdiv_512 (x : Int) : x.fdiv 512 = x / 512 :=
  Int.fdiv_eq_ediv x (by norm_num)

/-- Python `//` by 2048 agrees with Lean's `Int` euclidean division. -/
theorem fdiv_2048 (x : Int) : x.fdiv 2048 = x / 2048 :=
  Int.fdiv_eq_ediv x (by norm_num)

/-- Python `//` by 32 agrees with Lean's `Int` euclidean division. -/
theorem fdiv_32 (x : Int) : x.fdiv 32 = x / 32 :=
  Int.fdiv_eq_ediv x (by norm_num)

/-- The allocated sector count of any partition is bounded by its byte
size plus one sector of ceil rounding plus one alignment block. -/
theorem allocSectors_le (p : Partition) :
    512 * allocSectors p ≤ p.size + 511 + 2047 * 512 := by
  unfold allocSectors
  simp only [fdiv_512, fdiv_2048]
  split
  · omega
  · omega

/-- Partitions other than `BIOS boot` get an allocation that is by
construction a multiple of 2048 sectors. -/
theorem allocSectors_dvd (p : Partition) (h : p.ptype ≠ "BIOS boot") :
    (2048 : Int) ∣ allocSectors p := by
  unfold allocSectors
  rw [if_neg (by simp [h])]
  exact ⟨_, mul_comm _ _⟩

/-- When the whole layout fits below `usable`, the final-partition
clamp of lines 420-428 never fires, so every non-`BIOS boot` entry of
the allocation keeps its 2048-aligned sector count. -/
theorem allocate_mem_dvd (usable : Int) (ps : List Partition) :
    ∀ cur : Int, cur + (ps.map allocSectors).sum - 1 ≤ usable →
      ∀ x ∈ allocate usable cur ps,
        x.1.ptype ≠ "BIOS boot" → (2048 : Int) ∣ x.2.2 := by
  induction ps with
  | nil => intro cur _ x hx; simp [allocate] at hx
  | cons p tail ih =>
    cases tail with
    | nil =>
      intro cur hfit x hx hne
      simp only [List.map_cons, List.map_nil, List.sum_cons, List.sum_nil,
        add_zero] at hfit
      simp only [allocate] at hx
      rw [if_neg (by omega)] at hx
      simp only [List.mem_singleton] at hx
      subst hx
      exact allocSectors_dvd p hne
    | cons q rest =>
      intro cur hfit x hx hne
      simp only [allocate, List.mem_cons] at hx
      rcases hx with rfl | hx
      · exact allocSectors_dvd p hne
      · refine ih (cur + allocSectors p) ?_ x hx hne
        simp only [List.map_cons, List.sum_cons] at hfit ⊢
        omega

/-- Summed allocated sectors are bounded by the summed byte sizes plus
per-partition rounding overhead. -/
theorem sum_allocSectors_le (ps : List Partition) :
    512 * (ps.map allocSectors).sum ≤
      (ps.map (·.size)).sum + (ps.length : Int) * (511 + 2047 * 512) := by
  induction ps with
  | nil => simp
  | cons p t ih =>
      simp only [List.map_cons, List.sum_cons, List.length_cons]
      have h := allocSectors_le p
      push_cast
      push_cast at ih
      omega

/-- Summed byte sizes of the full-wipe layout: exactly the usable size
minus the 10 MiB alignment buffer, on both the normal and the
8 GiB-root fallback path. -/
theorem fullWipe_sum_sizes (total : Nat) (name : Option String) :
    ((fullWipePartitionList total name).map (·.size)).sum =
      usable_size total - alignment_buffer := by
  simp only [fullWipePartitionList, List.map_cons, List.map_nil,
    List.sum_cons, List.sum_nil, add_zero, models_size_final]
  ring

/-- The usable size in terms of the sector count. -/
theorem usable_size_eq (total : Nat) :
    usable_size total = (((total / 512 : Nat) : Int) - 2081) * 512 := by
  unfold usable_size usable_sectors
  ring

/-- The full-wipe layout always fits: starting from sector 2048, the
summed (still unclamped) sector allocation ends at or before
`total // 512 - 33`, the apply-side usable-sector bound — the 10 MiB
alignment buffer dominates the at-most `5 * (511 + 2047*512)` bytes of
per-partition rounding. -/
theorem fullWipe_fit (total : Nat) (name : Option String) :
    2048 + ((fullWipePartitionList total name).map allocSectors).sum - 1 ≤
      ((total / 512 : Nat) : Int) - 33 := by
  have h1 := sum_allocSectors_le (fullWipePartitionList total name)
  rw [fullWipe_sum_sizes, usable_size_eq] at h1
  have h2 : ((fullWipePartitionList total name).length : Int) = 5 := by rfl
  rw [h2] at h1
  simp only [alignment_buffer] at h1
  omega

/-- The final validation of lines 183-187 never fires: the planner
always returns the five-partition layout. -/
theorem _create_full_wipe_plan_eq (drive : DriveInfo) (name : Option String) :
    _create_full_wipe_plan drive name =
      .ok (fullWipePartitionList drive.size name) := by
  unfold _create_full_wipe_plan
  rw [if_neg]
  rw [fullWipe_sum_sizes]
  simp only [alignment_buffer, not_lt]
  omega

/-! ### Claim theorems -/

/-- C9: for every drive and module name, the full-wipe planner's five
partition sizes sum to exactly `usable_size` minus the 10 MiB
alignment buffer, on both the normal and the 8 GiB-root fallback path,
so the final validation branch raising "Partition plan exceeds
available space" is unreachable. -/
theorem full_wipe_sum_exact_validation_unreachable
    (drive : DriveInfo) (name : Option String) :
    ∃ ps, _create_full_wipe_plan drive name = .ok ps ∧
      (ps.map (·.size)).sum = usable_size drive.size - 10 * 1024 * 1024 :=
  ⟨_, _create_full_wipe_plan_eq drive name, by
    rw [fullWipe_sum_sizes]; rfl⟩

/-- C1 counterexample: a device of 1,065,984 bytes (just above the
`(2048+33)*512` threshold) with no existing partitions, in dual-use
mode: the single created partition is clamped up to 25 GiB, which
exceeds the 512 usable bytes — the claimed invariant fails for
dual-use plans. -/
theorem dual_use_exceeds_usable_cex :
    (1065984 : Nat) > (2048 + 33) * 512 ∧
    planCreateSizesSum
      (create_partition_plan ⟨"/dev/sdb", 1065984, []⟩ "dual_use" none) =
        some 26843545600 ∧
    usable_size 1065984 = 512 ∧ (26843545600 : Int) > 512 := by
  refine ⟨by norm_num, by rfl, by rfl, by norm_num⟩

/-- C1 amended: the usable-capacity invariant does hold for full-wipe
plans — every full-wipe plan's summed partition sizes (all newly
created) stay within `usable_size`. -/
theorem full_wipe_within_usable (drive : DriveInfo) (name : Option String)
    (plan : PartitionPlan)
    (h : create_partition_plan drive "full_wipe" name = .ok plan) :
    (plan.partitions.map (·.size)).sum ≤ usable_size drive.size := by
  rw [create_partition_plan, if_pos rfl, _create_full_wipe_plan_eq] at h
  simp only [Except.map] at h
  injection h with h
  subst h
  rw [fullWipe_sum_sizes]
  simp only [alignment_buffer]
  omega

/-- Witness for C1's amended theorem at a 128 GiB drive. -/
theorem full_wipe_within_usable_witness :
    ((PartitionPlan.mk ⟨"/dev/sdb", 137438953472, []⟩ "full_wipe"
        (fullWipePartitionList 137438953472 none) none).partitions.map
      (·.size)).sum ≤ usable_size 137438953472 :=
  full_wipe_within_usable ⟨"/dev/sdb", 137438953472, []⟩ none
    (PartitionPlan.mk ⟨"/dev/sdb", 137438953472, []⟩ "full_wipe"
      (fullWipePartitionList 137438953472 none) none) (by rfl)

/-- C2 counterexample: a 10 GiB drive in full-wipe mode. The initial
data partition is negative, the fallback shrinks root to 8 GiB, and
the recomputed data partition (1,261,453,328 bytes ≈ 1.2 GiB) is still
below the 5 GiB floor — yet the planner returns this plan instead of
failing with a `CapacityError`. -/
theorem small_drive_subfloor_plan_cex :
    planPartSizes
      (create_partition_plan ⟨"/dev/sdb", 10737418240, []⟩ "full_wipe" none) =
        some [2097152, 536870912, 8589934592, 335511024, 1261453328] ∧
    (1261453328 : Int) < 5 * 1024 ^ 3 := ⟨by rfl, by norm_num⟩

/-- C2 amended: when the initial data-partition size is below the
5 GiB floor, the planner shrinks root to 8 GiB and recomputes the data
partition exactly once — but then returns the plan unconditionally:
no `CapacityError` exists, and the recomputed data partition may still
be negative or below the floor. -/
theorem fallback_recompute_no_error (drive : DriveInfo) (name : Option String)
    (h : models_size_initial drive.size < 5 * 1024 ^ 3) :
    ∃ ps, _create_full_wipe_plan drive name = .ok ps ∧
      ps.map (·.size) = [2 * 1024 * 1024, 512 * 1024 * 1024, 8 * 1024 ^ 3,
        swap_size drive.size, models_size_final drive.size] := by
  refine ⟨_, _create_full_wipe_plan_eq drive name, ?_⟩
  have hr : root_size_final drive.size = 8 * 1024 ^ 3 := by
    unfold root_size_final; rw [if_pos h]
  simp [fullWipePartitionList, hr, bios_boot_size, efi_size]

/-- Witness for C2's amended theorem at the 10 GiB drive. -/
theorem fallback_recompute_no_error_witness :
    models_size_initial 10737418240 < 5 * 1024 ^ 3 ∧
    ∃ ps, _create_full_wipe_plan ⟨"/dev/sdb", 10737418240, []⟩ none = .ok ps ∧
      ps.map (·.size) = [2 * 1024 * 1024, 512 * 1024 * 1024, 8 * 1024 ^ 3,
        swap_size 10737418240, models_size_final 10737418240] :=
  ⟨by decide, fallback_recompute_no_error ⟨"/dev/sdb", 10737418240, []⟩ none
    (by decide)⟩

/-- C3 counterexample: a 1 GiB drive with no existing partitions in
dual-use mode has `available = 1 GiB < 26 GiB`, yet `plan()` succeeds
with a 25 GiB partition instead of failing with
`InsufficientSpaceError`. -/
theorem dual_use_no_insufficient_space_cex :
    planPartSizes
      (create_partition_plan ⟨"/dev/sdb", 1073741824, []⟩ "dual_use" none) =
        some [26843545600] ∧
    ((1073741824 : Int) - 0) < 26 * 1024 ^ 3 ∧
    (26843545600 : Int) = 25 * 1024 ^ 3 := ⟨by rfl, by norm_num, by norm_num⟩

/-- C3 amended: dual-use planning computes
`available = drive.size - sum(existing sizes)` from the RAW total
capacity (not `usable_bytes`), and never fails for lack of space: the
new partition is always `min(50 GiB, max(25 GiB, available - 1 GiB))`,
i.e. below the 26 GiB threshold it still allocates 25 GiB. -/
theorem dual_use_size_formula (drive : DriveInfo) (name : Option String)
    (cur : List Partition) (h : _get_current_partitions drive = .ok cur) :
    _create_dual_use_plan drive name = .ok
      ((cur.map fun p => { p with action := some "preserve" }) ++
        [{ number := maxDefault0 (cur.map (·.number)) + 1,
           ptype := "Linux filesystem", filesystem := "ext4",
           size := min (50 * 1024 * 1024 * 1024)
             (max (25 * 1024 * 1024 * 1024)
               ((drive.size : Int) - (cur.map (·.size)).sum -
                 1024 * 1024 * 1024)),
           label := weirding_label name, flags := [],
           mount_point := some "/opt/weirding",
           action := some "create" }]) := by
  unfold _create_dual_use_plan
  rw [h]
  rfl

/-- Witness for C3's amended theorem: a 128 GiB drive with one 100 GiB
existing partition receives a 27 GiB module partition. -/
theorem dual_use_size_formula_witness :
    _create_dual_use_plan
      ⟨"/dev/sdb", 137438953472, [⟨"/dev/sdb1", "100G", "ext4", "/mnt"⟩]⟩
      none = .ok
      [{ number := 1, ptype := "", filesystem := "ext4",
         size := 107374182400, label := "", flags := [],
         mount_point := none, mountpoint := "/mnt", name := "/dev/sdb1",
         action := some "preserve" },
       { number := 2, ptype := "Linux filesystem", filesystem := "ext4",
         size := 28991029248, label := "WEIRDING_MODULE", flags := [],
         mount_point := some "/opt/weirding", mountpoint := "", name := "",
         action := some "create" }] :=
  dual_use_size_formula
    ⟨"/dev/sdb", 137438953472, [⟨"/dev/sdb1", "100G", "ext4", "/mnt"⟩]⟩
    none
    [{ number := 1, ptype := "", filesystem := "ext4",
       size := 107374182400, label := "", flags := [],
       mount_point := none, mountpoint := "/mnt", name := "/dev/sdb1",
       action := none }] (by rfl)

/-- C5 counterexample: on a 10 GiB drive (usable < 64 GiB) the
returned root partition is the 8 GiB fallback, not the claimed
10 GiB. -/
theorem full_wipe_fallback_root_cex :
    planPartSizes
      (create_partition_plan ⟨"/dev/sdb", 10737418240, []⟩ "full_wipe" none) =
        some [2097152, 536870912, 8589934592, 335511024, 1261453328] ∧
    usable_size 10737418240 < 64 * 1024 ^ 3 ∧
    (8589934592 : Int) ≠ 10 * 1024 ^ 3 := ⟨by rfl, by decide, by norm_num⟩

/-- C5 amended: the full-wipe plan always has exactly five partitions
sized bios_boot = 2 MiB, efi = 512 MiB, root = 10 GiB
(usable < 64 GiB) or 20 GiB — unless the data partition would fall
below the 5 GiB floor, in which case root = 8 GiB —,
swap = min(4 GiB, usable/32), and data = usable minus the other four
minus a 10 MiB alignment buffer. -/
theorem full_wipe_partition_sizes (drive : DriveInfo) (name : Option String) :
    ∃ ps, _create_full_wipe_plan drive name = .ok ps ∧ ps.length = 5 ∧
      ps.map (·.size) =
        [2 * 1024 * 1024, 512 * 1024 * 1024,
         (if models_size_initial drive.size < 5 * 1024 ^ 3 then 8 * 1024 ^ 3
          else if usable_size drive.size < 64 * 1024 ^ 3 then 10 * 1024 ^ 3
          else 20 * 1024 ^ 3),
         min (4 * 1024 ^ 3) ((usable_size drive.size).fdiv 32),
         usable_size drive.size -
           (2 * 1024 * 1024 + 512 * 1024 * 1024 +
            (if models_size_initial drive.size < 5 * 1024 ^ 3 then
               8 * 1024 ^ 3
             else if usable_size drive.size < 64 * 1024 ^ 3 then
               10 * 1024 ^ 3
             else 20 * 1024 ^ 3) +
            min (4 * 1024 ^ 3) ((usable_size drive.size).fdiv 32) +
            10 * 1024 * 1024)] :=
  ⟨_, _create_full_wipe_plan_eq drive name, rfl, rfl⟩

/-- C7 counterexample: a 128 GiB drive with no existing partitions in
dual-use mode yields a plan with zero root partitions (the created
partition mounts at `/opt/weirding`), refuting root-uniqueness for
"either mode". -/
theorem dual_use_rootless_cex :
    planRootCount
      (create_partition_plan ⟨"/dev/sdb", 137438953472, []⟩ "dual_use" none) =
        some 0 ∧ some (0 : Nat) ≠ some 1 := ⟨by rfl, by decide⟩

/-- C7 amended: every full-wipe plan contains exactly one partition
whose mount point is `/`; dual-use plans create no root partition. -/
theorem full_wipe_unique_root (drive : DriveInfo) (name : Option String)
    (plan : PartitionPlan)
    (h : create_partition_plan drive "full_wipe" name = .ok plan) :
    (plan.partitions.filter fun q => q.mount_point == some "/").length = 1 := by
  rw [create_partition_plan, if_pos rfl, _create_full_wipe_plan_eq] at h
  simp only [Except.map] at h
  injection h with h
  subst h
  rfl

/-- Witness for C7's amended theorem at a 128 GiB drive. -/
theorem full_wipe_unique_root_witness :
    ((PartitionPlan.mk ⟨"/dev/sdb", 137438953472, []⟩ "full_wipe"
        (fullWipePartitionList 137438953472 none) none).partitions.filter
      fun q => q.mount_point == some "/").length = 1 :=
  full_wipe_unique_root ⟨"/dev/sdb", 137438953472, []⟩ none
    (PartitionPlan.mk ⟨"/dev/sdb", 137438953472, []⟩ "full_wipe"
      (fullWipePartitionList 137438953472 none) none) (by rfl)

/-- C8: when the backup stage fails, `apply_partition_plan` returns
`False` having run nothing else: no unmount, no table mutation, no
format, no restore. -/
theorem backup_failure_aborts (mode : String) (env : ApplyEnv)
    (h : env.backupOk = false) :
    apply_partition_plan_flow mode env =
      { returned := false, unmountCalled := false,
        tableMutationStarted := false, formatCalled := false,
        restoreCalled := false, restoreResult := none } := by
  simp [apply_partition_plan_flow, h]

/-- Witness for C8 at a concrete environment. -/
theorem backup_failure_aborts_witness :
    apply_partition_plan_flow "full_wipe" ⟨false, true, true, true, true⟩ =
      { returned := false, unmountCalled := false,
        tableMutationStarted := false, formatCalled := false,
        restoreCalled := false, restoreResult := none } :=
  backup_failure_aborts "full_wipe" ⟨false, true, true, true, true⟩ rfl

/-- C4 counterexample: a failed GPT creation command makes
`_apply_full_wipe_partitioning` return `False`, and
`apply_partition_plan` then returns `False` WITHOUT attempting any
rollback — refuting "whenever apply() fails at or after the
table-mutation stage ... the Applier automatically attempts
rollback". -/
theorem table_write_failure_no_rollback_cex :
    (apply_partition_plan_flow "full_wipe"
        ⟨true, false, true, true, true⟩).tableMutationStarted = true ∧
    (apply_partition_plan_flow "full_wipe"
        ⟨true, false, true, true, true⟩).returned = false ∧
    (apply_partition_plan_flow "full_wipe"
        ⟨true, false, true, true, true⟩).restoreCalled = false := by decide

/-- C4 amended: rollback is attempted only on the exception path — a
formatting failure (with the backup file present) — not on a
table-write failure, which returns `False` with no rollback; and the
returned result is the bare boolean `tableOk && formatOk`, carrying no
indication of whether the rollback succeeded. -/
theorem apply_rollback_characterization (mode : String) (env : ApplyEnv)
    (hm : mode = "full_wipe" ∨ mode = "dual_use")
    (hb : env.backupOk = true) :
    (apply_partition_plan_flow mode env).returned =
      (env.tableOk && env.formatOk) ∧
    (env.tableOk = false →
      (apply_partition_plan_flow mode env).restoreCalled = false) ∧
    (env.tableOk = true → env.formatOk = false →
      (apply_partition_plan_flow mode env).restoreCalled =
        env.backupFileExists) ∧
    (apply_partition_plan_flow mode env).returned =
      (apply_partition_plan_flow mode { env with restoreOk := true }).returned := by
  rcases env with ⟨b, t, f, e, r⟩
  cases hb
  rcases hm with hm | hm <;> subst hm <;>
    cases t <;> cases f <;> cases e <;> cases r <;>
      simp [apply_partition_plan_flow]

/-- Witness for C4's amended theorem: formatting failure with the
backup present. -/
theorem apply_rollback_characterization_witness :
    (apply_partition_plan_flow "full_wipe"
        ⟨true, true, false, true, true⟩).returned = (true && false) ∧
    ((true : Bool) = false →
      (apply_partition_plan_flow "full_wipe"
          ⟨true, true, false, true, true⟩).restoreCalled = false) ∧
    ((true : Bool) = true → (false : Bool) = false →
      (apply_partition_plan_flow "full_wipe"
          ⟨true, true, false, true, true⟩).restoreCalled = true) ∧
    (apply_partition_plan_flow "full_wipe"
        ⟨true, true, false, true, true⟩).returned =
      (apply_partition_plan_flow "full_wipe"
          ⟨true, true, false, true, true⟩).returned :=
  apply_rollback_characterization "full_wipe"
    ⟨true, true, false, true, true⟩ (Or.inl rfl) rfl

/-- C10 counterexample: `_parse_size_to_bytes "."` raises `ValueError`
inside `float()` instead of returning an integer — the function is not
total. -/
theorem parse_size_dot_raises_cex :
    _parse_size_to_bytes "." = .error "could not convert string to float" :=
  by rfl

/-- C10 amended: `_parse_size_to_bytes` returns a non-negative integer
whenever it returns at all, and returns 0 for every string whose
leading digit/dot run is empty (including the empty string); it raises
(only) when that run is a malformed float literal, such as `"."`. So
dual-use planning counts missing or non-matching size strings as
0 bytes, enlarging `available_space`. -/
theorem parse_size_props_thm (s : String) :
    (∀ n, _parse_size_to_bytes s = .ok n → 0 ≤ n) ∧
    (pyDigitRun s = [] → _parse_size_to_bytes s = .ok 0) := by
  constructor
  · intro n h
    unfold _parse_size_to_bytes at h
    split at h
    · injection h with h; omega
    · split at h
      · injection h with h; omega
      · split at h
        · injection h with h
          omega
        · exact absurd h (by simp)
  · intro hds
    simp [_parse_size_to_bytes, hds]

/-- C6: during full-wipe apply of a planner-produced plan, every
partition except `BIOS boot` receives an allocated sector count that
is a multiple of 2048 — including the final partition: the end-sector
clamp of lines 420-428 never fires for these plans, so the aligned
count survives. -/
theorem full_wipe_alignment (drive : DriveInfo) (name : Option String)
    (plan : PartitionPlan)
    (h : create_partition_plan drive "full_wipe" name = .ok plan) :
    ∀ x ∈ _apply_full_wipe_sectors plan,
      x.1.ptype ≠ "BIOS boot" → (2048 : Int) ∣ x.2.2 := by
  rw [create_partition_plan, if_pos rfl, _create_full_wipe_plan_eq] at h
  simp only [Except.map] at h
  injection h with h
  subst h
  intro x hx hne
  revert hx
  unfold _apply_full_wipe_sectors
  simp only [fullWipePartitionList, shrinkLast, List.dropLast, List.map_cons,
    List.map_nil, List.sum_cons, List.sum_nil, add_zero]
  have hbb : bios_boot_size = 2097152 := by norm_num [bios_boot_size]
  have hef : efi_size = 536870912 := by norm_num [efi_size]
  have hmf : models_size_final drive.size =
      usable_size drive.size -
        (bios_boot_size + efi_size + root_size_final drive.size +
          swap_size drive.size + alignment_buffer) := rfl
  have hu := usable_size_eq drive.size
  have hab : alignment_buffer = 10485760 := by norm_num [alignment_buffer]
  split
  · intro hx
    exfalso
    omega
  · intro hx
    refine allocate_mem_dvd _ _ 2048 ?_ x hx hne
    have hfit := fullWipe_fit drive.size name
    simp only [fullWipePartitionList] at hfit
    exact hfit
/-- Witness for C6 at a 128 GiB drive: the EFI partition's allocation
(start sector 6144, 1048576 sectors) is in the computed layout and its
sector count is a multiple of 2048. -/
theorem full_wipe_alignment_witness :
    (2048 : Int) ∣
      ((({ number := 2, ptype := "EFI System", filesystem := "fat32",
            size := efi_size, label := "WEIRD_EFI", flags := ["boot", "esp"],
            mount_point := some "/boot/efi" }, 6144, 1048576) :
          Partition × Int × Int)).2.2 :=
  full_wipe_alignment ⟨"/dev/sdb", 137438953472, []⟩ none
    (PartitionPlan.mk ⟨"/dev/sdb", 137438953472, []⟩ "full_wipe"
      (fullWipePartitionList 137438953472 none) none) (by rfl)
    ({ number := 2, ptype := "EFI System", filesystem := "fat32",
       size := efi_size, label := "WEIRD_EFI", flags := ["boot", "esp"],
       mount_point := some "/boot/efi" }, 6144, 1048576)
    (by decide) (by decide)

/-- Witness for C10's amended theorem: a parsable and a non-matching
input. -/
theorem parse_size_props_witness :
    (0 : Int) ≤ 107374182400 ∧ _parse_size_to_bytes "abc" = .ok 0 :=
  ⟨(parse_size_props_thm "100G").1 107374182400 (by rfl),
   (parse_size_props_thm "abc").2 (by rfl)⟩

end Weirding
